import Mathlib

/-!
Shallow embedding of `Gems/MotionMatching/Code/Source/PoseDataJointVelocities.cpp`
(O3DE motion-matching joint-velocity pose data).

Modelling conventions:
* `float` values (times, durations, weights, vector components) are modelled
  as `ℚ`; `AZ::Vector3` is `ℚ × ℚ × ℚ`.
* `size_t` is `Nat`; the `InvalidIndex` sentinel (`numeric_limits<size_t>::max()`)
  is the concrete constant `2^64 - 1`.
* External collaborators (motion sampler, transforms) are opaque data:
  a `Transform` carries its world position and its `TransformVector` action on
  vectors; `Transform::Inversed` is an abstract function parameter `inv`.
* Stateful methods become functions returning the updated structures.
-/

/-- Vector with three exact rational components, modelling `AZ::Vector3`. -/
abbrev Vec3 : Type := ℚ × ℚ × ℚ

/-- Componentwise division of a vector by a scalar, modelling
`AZ::Vector3::operator/=(float)` used in the averaging step. -/
def vdiv (v : Vec3) (c : ℚ) : Vec3 := (v.1 / c, v.2.1 / c, v.2.2 / c)

/-- Modelled from the spec: `AZ::Vector3::Lerp` (AzCore, not under `src/`):
linear interpolation `lerp(a, b, t) = a + t • (b - a)`; at `t = 0` it yields
`a`, at `t = 1` it yields `b`. -/
def lerp (a b : Vec3) (t : ℚ) : Vec3 := a + t • (b - a)

/-- Modelled from the spec: `AZ::GetClamp` (AzCore, not under `src/`):
clamp a value into `[lo, hi]`. -/
def clampQ (x lo hi : ℚ) : ℚ := if x < lo then lo else if x > hi then hi else x

/-- A joint world-space transform as consumed by the velocity code: its
translation (`m_position`) and its action on free vectors
(`TransformVector`, rotation only — no translation applied). -/
structure Transform where
  m_position : Vec3
  transformVector : Vec3 → Vec3

/-- A sampled pose, exposing `GetWorldSpaceTransform` per joint index. -/
abbrev SampledPose : Type := Nat → Transform

/-- The motion instance: current playback time, the clip duration
(`GetMotion()->GetDuration()`), and the clip sampler
(`Motion::Update` with the bind pose as base pose), a deterministic
function of the instance's current time. -/
structure MotionInstance where
  m_currentTime : ℚ
  m_duration : ℚ
  m_sample : ℚ → SampledPose

/-- The joint-velocity pose data (`PoseDataJointVelocities`): per-joint
linear and angular velocities, the reference joint index, and the
`m_isUsed` flag inherited from `PoseData`. -/
structure PoseDataJointVelocities where
  m_isUsed : Bool
  m_velocities : List Vec3
  m_angularVelocities : List Vec3
  m_relativeToJointIndex : Nat
deriving DecidableEq

/-- The `InvalidIndex` sentinel: `numeric_limits<size_t>::max()`. -/
def InvalidIndex : Nat := 2 ^ 64 - 1

/-- Model of `AZStd::vector::resize`: keep the first `n` elements, pad
with default-constructed vectors (the padding value is unspecified in the
source — `AZ::Vector3` default-constructs uninitialized — and no verified
property reads the padded entries). -/
def listResize (l : List Vec3) (n : Nat) : List Vec3 :=
  l.take n ++ List.replicate (n - l.length) (0 : Vec3)

/-- Model of `PoseDataJointVelocities::Clear`: drop both arrays to empty. -/
def PoseDataJointVelocities.Clear (pd : PoseDataJointVelocities) :
    PoseDataJointVelocities :=
  { pd with m_velocities := [], m_angularVelocities := [] }

/-- Model of `PoseDataJointVelocities::SetRelativeToJointIndex`: map the
`InvalidIndex` sentinel to joint 0, keep any other index. -/
def PoseDataJointVelocities.SetRelativeToJointIndex
    (pd : PoseDataJointVelocities) (relativeToJointIndex : Nat) :
    PoseDataJointVelocities :=
  if relativeToJointIndex = InvalidIndex then
    { pd with m_relativeToJointIndex := 0 }
  else
    { pd with m_relativeToJointIndex := relativeToJointIndex }

/-- Model of `PoseDataJointVelocities::LinkToActorInstance`: resize both arrays to
the actor instance's node count and set the reference joint from the
actor's motion-extraction node index. -/
def PoseDataJointVelocities.LinkToActorInstance
    (pd : PoseDataJointVelocities) (numNodes motionExtractionNodeIndex : Nat) :
    PoseDataJointVelocities :=
  let pd1 := { pd with
    m_velocities := listResize pd.m_velocities numNodes,
    m_angularVelocities := listResize pd.m_angularVelocities numNodes }
  pd1.SetRelativeToJointIndex motionExtractionNodeIndex

/-- Model of `PoseDataJointVelocities::Reset`: zero entries `0 ≤ i < m_velocities.size()`
of both arrays (in the verified code paths both arrays have that same
length, so this zeroes both arrays entirely). -/
def PoseDataJointVelocities.Reset (pd : PoseDataJointVelocities) :
    PoseDataJointVelocities :=
  let n := pd.m_velocities.length
  { pd with
    m_velocities := List.replicate n (0 : Vec3) ++ pd.m_velocities.drop n,
    m_angularVelocities :=
      List.replicate n (0 : Vec3) ++ pd.m_angularVelocities.drop n }

/-- Model of `PoseDataJointVelocities::CopyFrom`: copy the used flag, both arrays and
the reference joint index from a pose data of the same kind. -/
def PoseDataJointVelocities.CopyFrom
    (pd fromData : PoseDataJointVelocities) : PoseDataJointVelocities :=
  { pd with
    m_isUsed := fromData.m_isUsed,
    m_velocities := fromData.m_velocities,
    m_angularVelocities := fromData.m_angularVelocities,
    m_relativeToJointIndex := fromData.m_relativeToJointIndex }

/-- Model of `PoseDataJointVelocities::Blend`: `destPoseData` models
`destPose->GetPoseData<PoseDataJointVelocities>()` (`none` when the
destination pose has no such pose data). Three-way policy: no-op when the
destination data is absent or unused; per-component lerp when both are
used; verbatim copy of the destination arrays when only the destination is
used. -/
def PoseDataJointVelocities.Blend (pd : PoseDataJointVelocities)
    (destPoseData : Option PoseDataJointVelocities) (weight : ℚ) :
    PoseDataJointVelocities :=
  match destPoseData with
  | none => pd
  | some dest =>
    if dest.m_isUsed then
      if pd.m_isUsed then
        { pd with
          m_velocities :=
            List.zipWith (fun a b => lerp a b weight)
              pd.m_velocities dest.m_velocities,
          m_angularVelocities :=
            List.zipWith (fun a b => lerp a b weight)
              pd.m_angularVelocities dest.m_angularVelocities }
      else
        { pd with
          m_velocities := dest.m_velocities,
          m_angularVelocities := dest.m_angularVelocities }
    else
      pd

/-- Modelled from the spec: `CalculateLinearVelocity`
(`EMotionFX/Source/Velocity.h`, not under `src/`): linear velocity between
two positions over a time step, `(current - previous) / timeDelta`. -/
def CalculateLinearVelocity (prevPosition currentPosition : Vec3)
    (timeDelta : ℚ) : Vec3 :=
  vdiv (currentPosition - prevPosition) timeDelta

/-- The design constant `numSamples = 3` (`N`): number of sample intervals. -/
def numSamples : Nat := 3

/-- The design constant `timeRange = 0.05` seconds (`W`): sampling window. -/
def timeRange : ℚ := 0.05

/-- State threaded through the sampling loop of `CalculateVelocity`: the
motion instance's current playback time, the previous sampled pose
(`prevPose`), and the velocity accumulators. -/
structure CalcState where
  m_time : ℚ
  prevPose : SampledPose
  vels : List Vec3

/-- One iteration of the sampling loop of
`PoseDataJointVelocities::CalculateVelocity`: clamp the sample time into
`[0, motionDuration]`, set the motion instance's time, sample the clip;
at `sampleIndex = 0` only record the pose, otherwise accumulate for every
joint the linear velocity between the previous and the current sample,
transformed by the inverse of the reference joint's world transform at the
current sample. `inv` models `Transform::Inversed`. -/
def calcStep (inv : Transform → Transform) (mi : MotionInstance)
    (relativeToJointIndex numJoints : Nat) (startTime frameDelta : ℚ)
    (s : CalcState) (sampleIndex : Nat) : CalcState :=
  let sampleTime :=
    clampQ (startTime + (sampleIndex : ℚ) * frameDelta) 0 mi.m_duration
  if sampleIndex = 0 then
    { m_time := sampleTime, prevPose := mi.m_sample sampleTime, vels := s.vels }
  else
    let currentPose := mi.m_sample sampleTime
    let inverseJointWorldTransform := inv (currentPose relativeToJointIndex)
    let newVels := (List.range numJoints).map (fun jointIndex =>
      s.vels.getD jointIndex 0 +
        inverseJointWorldTransform.transformVector
          (CalculateLinearVelocity (s.prevPose jointIndex).m_position
            (currentPose jointIndex).m_position frameDelta))
    { m_time := sampleTime, prevPose := currentPose, vels := newVels }

/-- Model of `PoseDataJointVelocities::CalculateVelocity`: returns the motion
instance (with its playback time restored) and the updated pose data.
`inv` models `Transform::Inversed`. The scratch-pose-pool acquire/release
has no observable effect on the verified state and is not modelled. -/
def PoseDataJointVelocities.CalculateVelocity (inv : Transform → Transform)
    (mi : MotionInstance) (pd : PoseDataJointVelocities)
    (relativeToJointIndex : Nat) :
    MotionInstance × PoseDataJointVelocities :=
  let numJoints := pd.m_velocities.length
  let pd1 := pd.SetRelativeToJointIndex relativeToJointIndex
  let pd2 := { pd1 with
    m_velocities := listResize pd1.m_velocities numJoints,
    m_angularVelocities := listResize pd1.m_angularVelocities numJoints }
  let originalTime := mi.m_currentTime
  let halfTimeRange := timeRange * 0.5
  let startTime := originalTime - halfTimeRange
  let frameDelta := timeRange / (numSamples : ℚ)
  let pd3 := pd2.Reset
  let s0 : CalcState :=
    { m_time := originalTime,
      prevPose := fun _ => { m_position := 0, transformVector := id },
      vels := pd3.m_velocities }
  let sEnd := (List.range (numSamples + 1)).foldl
    (calcStep inv mi relativeToJointIndex numJoints startTime frameDelta) s0
  let numSamplesFloat : ℚ := (numSamples : ℚ)
  let pd4 := { pd3 with
    m_velocities := sEnd.vels.map (fun v => vdiv v numSamplesFloat),
    m_angularVelocities :=
      pd3.m_angularVelocities.map (fun v => vdiv v numSamplesFloat) }
  ({ mi with m_currentTime := originalTime }, pd4)

/-- Spec-side rendering of the sample times: `N + 1` evenly spaced samples
across a window of width `W = 0.05` centered on the current time `t`, the
`k`-th at `t - W/2 + k * (W/N)`, clamped into `[0, duration]`. -/
def specSampleTime (t duration : ℚ) (k : Nat) : ℚ :=
  clampQ (t - timeRange / 2 + (k : ℚ) * (timeRange / (numSamples : ℚ)))
    0 duration

/-- Spec-side rendering of one accumulated contribution: for the pair of
consecutive samples `k` and `k+1`, the world-position delta divided by
`W/N`, transformed into the reference joint's frame at sample `k+1`
(the current sample of that pair). -/
def specContribution (inv : Transform → Transform) (mi : MotionInstance)
    (relativeToJointIndex : Nat) (k jointIndex : Nat) : Vec3 :=
  let tPrev := specSampleTime mi.m_currentTime mi.m_duration k
  let tCur := specSampleTime mi.m_currentTime mi.m_duration (k + 1)
  (inv (mi.m_sample tCur relativeToJointIndex)).transformVector
    (vdiv ((mi.m_sample tCur jointIndex).m_position -
        (mi.m_sample tPrev jointIndex).m_position)
      (timeRange / (numSamples : ℚ)))

/-- Spec-side rendering of the claimed estimator output: for each joint,
the sum of the `N = 3` consecutive-pair contributions divided by `N`. -/
def specVelocities (inv : Transform → Transform) (mi : MotionInstance)
    (relativeToJointIndex numJoints : Nat) : List Vec3 :=
  (List.range numJoints).map (fun jointIndex =>
    vdiv (∑ k ∈ Finset.range numSamples,
        specContribution inv mi relativeToJointIndex k jointIndex)
      (numSamples : ℚ))

/-- Claim-side rendering (claim C5's reading of the output frame): every
accumulated contribution transformed into the reference joint's frame at
the *final* evaluated sample, i.e. sample index `numSamples`, instead of
at the current sample of each consecutive pair. -/
def specVelocitiesFinalFrame (inv : Transform → Transform)
    (mi : MotionInstance) (relativeToJointIndex numJoints : Nat) : List Vec3 :=
  (List.range numJoints).map (fun jointIndex =>
    vdiv (∑ k ∈ Finset.range numSamples,
        (inv (mi.m_sample
            (specSampleTime mi.m_currentTime mi.m_duration numSamples)
            relativeToJointIndex)).transformVector
          (vdiv ((mi.m_sample
                (specSampleTime mi.m_currentTime mi.m_duration (k + 1))
                jointIndex).m_position -
              (mi.m_sample (specSampleTime mi.m_currentTime mi.m_duration k)
                jointIndex).m_position)
            (timeRange / (numSamples : ℚ))))
      (numSamples : ℚ))

/-- Concrete world transform family for the frame counterexample: the
joint sits at `(t, 0, 0)` at clip time `t`; its orientation is the
identity for `t ≤ 1` and the rotation by `π` about the z-axis afterwards.
Both rotations are involutive, so each transform's inverse acts on free
vectors exactly as the transform itself does. -/
def cexTransform (t : ℚ) : Transform :=
  { m_position := (t, 0, 0),
    transformVector := fun v => if t ≤ 1 then v else (-v.1, -v.2.1, v.2.2) }

/-- Concrete motion instance for the frame counterexample: current time 1
on a clip of duration 2, every joint following `cexTransform`. -/
def cexMotion : MotionInstance :=
  { m_currentTime := 1, m_duration := 2, m_sample := fun t _ => cexTransform t }

/-- Concrete model of `Transform::Inversed` for the frame counterexample:
the transforms in `cexTransform` are involutive rotations, so the inverse
has the same action on free vectors. -/
def cexInv : Transform → Transform := id

/-- Concrete one-joint pose data used as counterexample input. -/
def cexPd : PoseDataJointVelocities :=
  { m_isUsed := true, m_velocities := [(0, 0, 0)],
    m_angularVelocities := [(0, 0, 0)], m_relativeToJointIndex := 0 }

/-- Concrete two-joint pose data used as a blend witness input (self). -/
def pdSelf : PoseDataJointVelocities :=
  { m_isUsed := true, m_velocities := [(1, 0, 0), (0, 2, 0)],
    m_angularVelocities := [(0, 0, 4), (1, 1, 0)], m_relativeToJointIndex := 0 }

/-- Concrete two-joint pose data used as a blend witness input (dest). -/
def pdDest : PoseDataJointVelocities :=
  { m_isUsed := true, m_velocities := [(3, 0, 0), (0, 0, 0)],
    m_angularVelocities := [(0, 0, 0), (5, 1, 2)], m_relativeToJointIndex := 1 }

/-- The data `pdDest` with its used flag cleared, for the blend no-op witness. -/
def pdDestUnused : PoseDataJointVelocities :=
  { pdDest with m_isUsed := false }

/-- The data `pdSelf` with its used flag cleared, for the blend replace witness. -/
def pdSelfUnused : PoseDataJointVelocities :=
  { pdSelf with m_isUsed := false }

/-- Empty pose data fed to the binding counterexample. -/
def pdEmpty : PoseDataJointVelocities :=
  { m_isUsed := false, m_velocities := [], m_angularVelocities := [],
    m_relativeToJointIndex := 0 }

/-- Result of binding `pdEmpty` to a zero-joint actor instance whose
motion-extraction node is the `InvalidIndex` sentinel. -/
def pdLinkedZero : PoseDataJointVelocities :=
  pdEmpty.LinkToActorInstance 0 InvalidIndex

/-! Helper lemmas. -/

theorem length_listResize (l : List Vec3) (n : Nat) :
    (listResize l n).length = n := by
  simp [listResize]
  omega

theorem listResize_self (l : List Vec3) : listResize l l.length = l := by
  simp [listResize]

theorem drop_listResize (l : List Vec3) (n : Nat) :
    (listResize l n).drop n = [] := by
  have h := List.drop_length (listResize l n)
  rwa [length_listResize] at h

theorem getD_map_range {n j : Nat} (f : Nat → Vec3) (d : Vec3) (h : j < n) :
    ((List.range n).map f).getD j d = f j := by
  simp [List.getD_eq_getElem?_getD, List.getElem?_map, List.getElem?_range, h]

theorem getD_replicate_zero (n j : Nat) :
    (List.replicate n (0 : Vec3)).getD j 0 = 0 := by
  simp [List.getD_eq_getElem?_getD, List.getElem?_replicate]
  split <;> simp

theorem setRel_m_velocities (pd : PoseDataJointVelocities) (r : Nat) :
    (pd.SetRelativeToJointIndex r).m_velocities = pd.m_velocities := by
  unfold PoseDataJointVelocities.SetRelativeToJointIndex
  split <;> rfl

theorem setRel_m_angularVelocities (pd : PoseDataJointVelocities) (r : Nat) :
    (pd.SetRelativeToJointIndex r).m_angularVelocities
      = pd.m_angularVelocities := by
  unfold PoseDataJointVelocities.SetRelativeToJointIndex
  split <;> rfl

theorem setRel_m_isUsed (pd : PoseDataJointVelocities) (r : Nat) :
    (pd.SetRelativeToJointIndex r).m_isUsed = pd.m_isUsed := by
  unfold PoseDataJointVelocities.SetRelativeToJointIndex
  split <;> rfl

theorem setRel_m_relativeToJointIndex (pd : PoseDataJointVelocities) (r : Nat) :
    (pd.SetRelativeToJointIndex r).m_relativeToJointIndex
      = if r = InvalidIndex then 0 else r := by
  unfold PoseDataJointVelocities.SetRelativeToJointIndex
  split <;> simp [*]

/-- Closed form of the sampling loop: for each joint, the three
consecutive-pair contributions (each in the frame of its own current
sample) are summed and divided by `numSamples`. -/
theorem calcVel_velocities_closed (inv : Transform → Transform)
    (mi : MotionInstance) (pd : PoseDataJointVelocities) (rel : Nat) :
    ((PoseDataJointVelocities.CalculateVelocity inv mi pd rel).2).m_velocities
      = (List.range pd.m_velocities.length).map (fun j =>
          vdiv (specContribution inv mi rel 0 j + specContribution inv mi rel 1 j
              + specContribution inv mi rel 2 j) ((numSamples : ℚ))) := by
  have hfold : List.range (numSamples + 1) = [0, 1, 2, 3] := rfl
  simp only [PoseDataJointVelocities.CalculateVelocity, hfold, List.foldl_cons,
    List.foldl_nil, setRel_m_velocities, setRel_m_angularVelocities,
    listResize_self, PoseDataJointVelocities.Reset, List.drop_length,
    List.append_nil, drop_listResize]
  simp only [calcStep]
  norm_num
  intro a ha
  simp only [List.getElem?_range ha, Option.map_some', Option.getD_some]
  simp only [specContribution, specSampleTime, CalculateLinearVelocity,
    timeRange, numSamples]
  norm_num

/-- The angular-velocity array after `CalculateVelocity`: the reset zeros,
divided entrywise by `numSamples`. -/
theorem calcVel_angular_closed (inv : Transform → Transform)
    (mi : MotionInstance) (pd : PoseDataJointVelocities) (rel : Nat) :
    ((PoseDataJointVelocities.CalculateVelocity inv mi pd rel).2).m_angularVelocities
      = List.replicate pd.m_velocities.length (vdiv 0 ((numSamples : ℚ))) := by
  simp only [PoseDataJointVelocities.CalculateVelocity, setRel_m_velocities,
    setRel_m_angularVelocities, listResize_self, PoseDataJointVelocities.Reset,
    drop_listResize, List.append_nil, List.drop_length]
  simp [List.map_replicate]

theorem vdiv_zero (c : ℚ) : vdiv 0 c = 0 := by
  simp [vdiv]

theorem lerp_zero (a b : Vec3) : lerp a b 0 = a := by
  simp [lerp]

theorem lerp_one (a b : Vec3) : lerp a b 1 = b := by
  simp [lerp]

theorem getD_zipWith (f : Vec3 → Vec3 → Vec3) :
    ∀ (l l' : List Vec3) (i : Nat), i < l.length → i < l'.length →
      (List.zipWith f l l').getD i 0 = f (l.getD i 0) (l'.getD i 0) := by
  intro l
  induction l with
  | nil =>
    intro l' i h h'
    simp at h
  | cons a as ih =>
    intro l' i h h'
    cases l' with
    | nil => simp at h'
    | cons b bs =>
      cases i with
      | zero => simp
      | succ n =>
        simp only [List.zipWith_cons_cons, List.getD_cons_succ]
        exact ih bs n (by simpa using h) (by simpa using h')

theorem zipWith_lerp_zero :
    ∀ (l l' : List Vec3), l.length = l'.length →
      List.zipWith (fun a b => lerp a b 0) l l' = l := by
  intro l
  induction l with
  | nil => intro l' h; simp
  | cons a as ih =>
    intro l' h
    cases l' with
    | nil => simp at h
    | cons b bs =>
      rw [List.zipWith_cons_cons, lerp_zero]
      exact congrArg (List.cons a) (ih bs (by simpa using h))

theorem zipWith_lerp_one :
    ∀ (l l' : List Vec3), l.length = l'.length →
      List.zipWith (fun a b => lerp a b 1) l l' = l' := by
  intro l
  induction l with
  | nil =>
    intro l' h
    cases l' with
    | nil => simp
    | cons b bs => simp at h
  | cons a as ih =>
    intro l' h
    cases l' with
    | nil => simp at h
    | cons b bs =>
      rw [List.zipWith_cons_cons, lerp_one]
      exact congrArg (List.cons b) (ih bs (by simpa using h))

/-! Claim theorems. -/

/-- C1: a call to `CalculateVelocity` at current time `t` on a clip of
duration `D` takes `N + 1 = 4` evenly spaced samples across a window of
`W = 0.05` time-units centered on `t`, clamping each sample time into
`[0, D]`; for each of the `N` consecutive sample pairs and every joint it
accumulates `(currentWorldPosition - previousWorldPosition) / (W / N)`
transformed into the reference joint's frame, and finally divides every
joint's summed linear and angular velocity by `N = 3` (the angular sum,
never written by the loop, is zero before the division). -/
theorem C1_multisample_average (inv : Transform → Transform)
    (mi : MotionInstance) (pd : PoseDataJointVelocities) (rel : Nat) :
    ((PoseDataJointVelocities.CalculateVelocity inv mi pd rel).2).m_velocities
        = specVelocities inv mi rel pd.m_velocities.length
      ∧ ((PoseDataJointVelocities.CalculateVelocity inv mi pd rel).2).m_angularVelocities
        = List.replicate pd.m_velocities.length (vdiv 0 (numSamples : ℚ)) := by
  refine ⟨?_, calcVel_angular_closed inv mi pd rel⟩
  rw [calcVel_velocities_closed]
  unfold specVelocities
  apply List.map_congr_left
  intro j hj
  simp [numSamples, Finset.sum_range_succ]

/-- C2: if both this instance and the destination's joint-velocity data
are used, with equal-length arrays, then after `Blend(dest, weight)` each
per-joint entry equals `lerp(self[i], dest[i], weight)` for both the
linear and the angular arrays; at `weight = 0` the arrays equal the
original self arrays, and at `weight = 1` they equal the destination's. -/
theorem C2_blend_lerp (pd dest : PoseDataJointVelocities) (weight : ℚ)
    (i : Nat)
    (hself : pd.m_isUsed = true) (hdest : dest.m_isUsed = true)
    (hlenV : pd.m_velocities.length = dest.m_velocities.length)
    (hlenA : pd.m_angularVelocities.length = dest.m_angularVelocities.length)
    (hiV : i < pd.m_velocities.length)
    (hiA : i < pd.m_angularVelocities.length) :
    ((pd.Blend (some dest) weight).m_velocities.getD i 0
        = lerp (pd.m_velocities.getD i 0) (dest.m_velocities.getD i 0) weight)
    ∧ ((pd.Blend (some dest) weight).m_angularVelocities.getD i 0
        = lerp (pd.m_angularVelocities.getD i 0)
            (dest.m_angularVelocities.getD i 0) weight)
    ∧ (pd.Blend (some dest) 0).m_velocities = pd.m_velocities
    ∧ (pd.Blend (some dest) 0).m_angularVelocities = pd.m_angularVelocities
    ∧ (pd.Blend (some dest) 1).m_velocities = dest.m_velocities
    ∧ (pd.Blend (some dest) 1).m_angularVelocities
        = dest.m_angularVelocities := by
  unfold PoseDataJointVelocities.Blend
  simp only [hself, hdest, if_true]
  exact ⟨getD_zipWith _ pd.m_velocities dest.m_velocities i hiV (hlenV ▸ hiV),
    getD_zipWith _ pd.m_angularVelocities dest.m_angularVelocities i hiA
      (hlenA ▸ hiA),
    zipWith_lerp_zero _ _ hlenV, zipWith_lerp_zero _ _ hlenA,
    zipWith_lerp_one _ _ hlenV, zipWith_lerp_one _ _ hlenA⟩

/-- Witness for C2 at concrete inputs: two-joint pose data, `weight = 1/4`,
joint index 1. -/
theorem C2_blend_lerp_witness :
    pdSelf.m_isUsed = true ∧ pdDest.m_isUsed = true
    ∧ pdSelf.m_velocities.length = pdDest.m_velocities.length
    ∧ pdSelf.m_angularVelocities.length = pdDest.m_angularVelocities.length
    ∧ 1 < pdSelf.m_velocities.length ∧ 1 < pdSelf.m_angularVelocities.length
    ∧ (((pdSelf.Blend (some pdDest) (1 / 4)).m_velocities.getD 1 0
        = lerp (pdSelf.m_velocities.getD 1 0) (pdDest.m_velocities.getD 1 0)
            (1 / 4))
      ∧ ((pdSelf.Blend (some pdDest) (1 / 4)).m_angularVelocities.getD 1 0
        = lerp (pdSelf.m_angularVelocities.getD 1 0)
            (pdDest.m_angularVelocities.getD 1 0) (1 / 4))
      ∧ (pdSelf.Blend (some pdDest) 0).m_velocities = pdSelf.m_velocities
      ∧ (pdSelf.Blend (some pdDest) 0).m_angularVelocities
          = pdSelf.m_angularVelocities
      ∧ (pdSelf.Blend (some pdDest) 1).m_velocities = pdDest.m_velocities
      ∧ (pdSelf.Blend (some pdDest) 1).m_angularVelocities
          = pdDest.m_angularVelocities) :=
  ⟨rfl, rfl, rfl, rfl, by norm_num [pdSelf], by norm_num [pdSelf],
    C2_blend_lerp pdSelf pdDest (1 / 4) 1 rfl rfl rfl rfl
      (by norm_num [pdSelf]) (by norm_num [pdSelf])⟩

/-- C3: if this instance is unused and the destination's joint-velocity
data is attached and used, `Blend(dest, weight)` copies the destination's
two arrays verbatim, for every `weight ∈ [0, 1]`. -/
theorem C3_blend_replace (pd dest : PoseDataJointVelocities) (weight : ℚ)
    (hself : pd.m_isUsed = false) (hdest : dest.m_isUsed = true)
    (h0 : 0 ≤ weight) (h1 : weight ≤ 1) :
    (pd.Blend (some dest) weight).m_velocities = dest.m_velocities
    ∧ (pd.Blend (some dest) weight).m_angularVelocities
        = dest.m_angularVelocities := by
  unfold PoseDataJointVelocities.Blend
  simp [hself, hdest]

/-- Witness for C3 at concrete inputs: unused self, used destination,
`weight = 1/3`. -/
theorem C3_blend_replace_witness :
    pdSelfUnused.m_isUsed = false ∧ pdDest.m_isUsed = true
    ∧ (0 : ℚ) ≤ 1 / 3 ∧ (1 : ℚ) / 3 ≤ 1
    ∧ ((pdSelfUnused.Blend (some pdDest) (1 / 3)).m_velocities
          = pdDest.m_velocities
      ∧ (pdSelfUnused.Blend (some pdDest) (1 / 3)).m_angularVelocities
          = pdDest.m_angularVelocities) :=
  ⟨rfl, rfl, by norm_num, by norm_num,
    C3_blend_replace pdSelfUnused pdDest (1 / 3) rfl rfl (by norm_num)
      (by norm_num)⟩

/-- C4: if the destination pose has no joint-velocity data attached, or
that data's used flag is false, `Blend` leaves this instance completely
unchanged, for any `weight ∈ [0, 1]`. -/
theorem C4_blend_noop (pd : PoseDataJointVelocities)
    (destPoseData : Option PoseDataJointVelocities) (weight : ℚ)
    (hdest : destPoseData = none
      ∨ ∃ dest, destPoseData = some dest ∧ dest.m_isUsed = false)
    (h0 : 0 ≤ weight) (h1 : weight ≤ 1) :
    pd.Blend destPoseData weight = pd := by
  rcases hdest with h | ⟨dest, hd, hu⟩
  · subst h
    rfl
  · subst hd
    unfold PoseDataJointVelocities.Blend
    simp [hu]

/-- Witness for C4 at concrete inputs: used self, attached but unused
destination, `weight = 3/4`. -/
theorem C4_blend_noop_witness :
    ((some pdDestUnused : Option PoseDataJointVelocities) = none
      ∨ ∃ dest, (some pdDestUnused : Option PoseDataJointVelocities)
          = some dest ∧ dest.m_isUsed = false)
    ∧ (0 : ℚ) ≤ 3 / 4 ∧ (3 : ℚ) / 4 ≤ 1
    ∧ pdSelf.Blend (some pdDestUnused) (3 / 4) = pdSelf :=
  ⟨Or.inr ⟨pdDestUnused, rfl, rfl⟩, by norm_num, by norm_num,
    C4_blend_noop pdSelf (some pdDestUnused) (3 / 4)
      (Or.inr ⟨pdDestUnused, rfl, rfl⟩) (by norm_num) (by norm_num)⟩

/-- C5 counterexample: at a concrete environment where the reference
joint's orientation changes inside the sampling window (an involutive
rotation family, so `Transform::Inversed` is modelled soundly by the
identity on the vector action), the computed velocities differ from the
claim-side rendering in which every accumulated contribution is expressed
in the *final* sample's reference-joint frame: the code transforms each
pair's contribution by the inverse reference transform of that pair's own
current sample. Computed value: `[(-1/3, 0, 0)]`; claimed rendering:
`[(-1, 0, 0)]`. -/
theorem C5_final_frame_counterexample :
    ((PoseDataJointVelocities.CalculateVelocity cexInv cexMotion cexPd 0).2).m_velocities
      ≠ specVelocitiesFinalFrame cexInv cexMotion 0 1 := by
  rw [calcVel_velocities_closed]
  show [_] ≠ _
  norm_num [specVelocitiesFinalFrame, specContribution, specSampleTime, clampQ,
    cexMotion, cexTransform, cexInv, cexPd, timeRange, numSamples, vdiv,
    Finset.sum_range_succ]

/-- C5 (amended): after `CalculateVelocity`, each accumulated contribution
is expressed in the reference joint's frame at the current sample of its
own consecutive pair (`specContribution k` uses the inverse reference
transform at sample `k + 1`); only the last pair's contribution is in the
final sample's frame. -/
theorem C5_per_pair_frame (inv : Transform → Transform) (mi : MotionInstance)
    (pd : PoseDataJointVelocities) (rel : Nat) :
    ((PoseDataJointVelocities.CalculateVelocity inv mi pd rel).2).m_velocities
      = (List.range pd.m_velocities.length).map (fun j =>
          vdiv (specContribution inv mi rel 0 j + specContribution inv mi rel 1 j
              + specContribution inv mi rel 2 j) ((numSamples : ℚ))) :=
  calcVel_velocities_closed inv mi pd rel

/-- C6: after `CalculateVelocity` returns, the motion instance's current
playback time equals its value immediately before the call. -/
theorem C6_time_restored (inv : Transform → Transform) (mi : MotionInstance)
    (pd : PoseDataJointVelocities) (rel : Nat) :
    ((PoseDataJointVelocities.CalculateVelocity inv mi pd rel).1).m_currentTime
      = mi.m_currentTime := rfl

/-- C7: after every call to `CalculateVelocity`, each entry of the
angular-velocity array is exactly zero: the accumulator is reset to zero
before the sampling loop, never written by it, and the final division
leaves zero at zero. -/
theorem C7_angular_zero (inv : Transform → Transform) (mi : MotionInstance)
    (pd : PoseDataJointVelocities) (rel : Nat) :
    ((PoseDataJointVelocities.CalculateVelocity inv mi pd rel).2).m_angularVelocities
      = List.replicate pd.m_velocities.length (0 : Vec3) := by
  rw [calcVel_angular_closed, vdiv_zero]

/-- C8: after `a.CopyFrom(b)`, `a` is structurally equal to `b` on both
velocity arrays, the reference joint index and the used flag. -/
theorem C8_copyFrom_eq (a b : PoseDataJointVelocities) :
    (a.CopyFrom b).m_velocities = b.m_velocities
    ∧ (a.CopyFrom b).m_angularVelocities = b.m_angularVelocities
    ∧ (a.CopyFrom b).m_relativeToJointIndex = b.m_relativeToJointIndex
    ∧ (a.CopyFrom b).m_isUsed = b.m_isUsed :=
  ⟨rfl, rfl, rfl, rfl⟩

/-- C9 counterexample: binding to an actor instance with zero joints whose
motion-extraction index is the `InvalidIndex` sentinel sizes both arrays
to 0 and sets the reference joint to 0, so the claimed consequence
`referenceJointIndex < J` is false (`0 < 0` fails). -/
theorem C9_reference_bound_counterexample :
    pdLinkedZero.m_velocities.length = 0
    ∧ pdLinkedZero.m_angularVelocities.length = 0
    ∧ pdLinkedZero.m_relativeToJointIndex = 0
    ∧ ¬ pdLinkedZero.m_relativeToJointIndex
        < pdLinkedZero.m_velocities.length := by
  decide

/-- C9 (amended): after `LinkToActorInstance` both arrays have length
exactly `J` and the reference joint index is the designated
motion-extraction index, or 0 when that designation is the invalid-index
sentinel; `referenceJointIndex < J` additionally holds whenever `J > 0`
and the designated index is the sentinel or itself below `J`. -/
theorem C9_link_sizing (pd : PoseDataJointVelocities)
    (numNodes extractionIndex : Nat)
    (hext : extractionIndex = InvalidIndex ∨ extractionIndex < numNodes)
    (hpos : 0 < numNodes) :
    (pd.LinkToActorInstance numNodes extractionIndex).m_velocities.length
        = numNodes
    ∧ (pd.LinkToActorInstance numNodes
          extractionIndex).m_angularVelocities.length = numNodes
    ∧ (pd.LinkToActorInstance numNodes
          extractionIndex).m_relativeToJointIndex
        = (if extractionIndex = InvalidIndex then 0 else extractionIndex)
    ∧ (pd.LinkToActorInstance numNodes
          extractionIndex).m_relativeToJointIndex < numNodes := by
  simp only [PoseDataJointVelocities.LinkToActorInstance, setRel_m_velocities,
    setRel_m_angularVelocities, setRel_m_relativeToJointIndex,
    length_listResize]
  refine ⟨trivial, trivial, trivial, ?_⟩
  split
  · exact hpos
  · next hne =>
    rcases hext with h | h
    · exact absurd h hne
    · exact h

/-- Witness for C9 at concrete inputs: three joints, designated
motion-extraction joint 1. -/
theorem C9_link_sizing_witness :
    ((1 : Nat) = InvalidIndex ∨ (1 : Nat) < 3) ∧ (0 : Nat) < 3
    ∧ ((pdEmpty.LinkToActorInstance 3 1).m_velocities.length = 3
      ∧ (pdEmpty.LinkToActorInstance 3 1).m_angularVelocities.length = 3
      ∧ (pdEmpty.LinkToActorInstance 3 1).m_relativeToJointIndex
          = (if (1 : Nat) = InvalidIndex then 0 else 1)
      ∧ (pdEmpty.LinkToActorInstance 3 1).m_relativeToJointIndex < 3) :=
  ⟨Or.inr (by decide), by decide,
    C9_link_sizing pdEmpty 3 1 (Or.inr (by decide)) (by decide)⟩

/-- C10: in every branch of `Blend`, the used flag and the reference joint
index of this instance are left unchanged. -/
theorem C10_blend_preserves_flag_and_reference
    (pd : PoseDataJointVelocities)
    (destPoseData : Option PoseDataJointVelocities) (weight : ℚ) :
    (pd.Blend destPoseData weight).m_isUsed = pd.m_isUsed
    ∧ (pd.Blend destPoseData weight).m_relativeToJointIndex
        = pd.m_relativeToJointIndex := by
  cases destPoseData with
  | none => exact ⟨rfl, rfl⟩
  | some dest =>
    unfold PoseDataJointVelocities.Blend
    by_cases hd : dest.m_isUsed <;> by_cases hs : pd.m_isUsed <;>
      simp [hd, hs]
